import Mathlib

/-!
Verification development for the numerical-library surface exercised by the
tutorial in `gonum.go` / `gonum_output_as_comments.go`.  The tutorial's own
code only sequences calls into the `mat` package; the operations themselves
are therefore modelled from the specification (sections 3, 4 and 7), with the
expected-output comments embedded in the tutorial acting as concrete test
values.  Matrix and vector elements are `float64` in the source; they are
modelled here as rationals, on which every arithmetic value appearing in the
tutorial and the spec is exact.
-/

namespace GonumModel

/-- Elements are modelled as rationals: every value the tutorial computes with
the operations under study is a small integer, on which `float64` arithmetic
is exact. -/
abbrev Scalar := ℚ

/-- Modelled from the spec: the error taxonomy of section 7 (DimensionError,
IndexError, StructuralWriteError).  Go panics are modelled as error results. -/
inductive MatError where
  | DimensionError
  | IndexError
  | StructuralWriteError
deriving DecidableEq, Repr

/-- Modelled from the spec: a dense matrix is a row count, a column count and
a flat, row-major storage buffer of `rows*cols` elements. -/
structure Dense where
  rows : Nat
  cols : Nat
  data : List Scalar
deriving DecidableEq, Repr

/-- Modelled from the spec: `at(row, col)` reads the row-major buffer at
index `row*cols + col`.  Out-of-range reads are totalised with the default 0;
every claim below constrains indices to be in range. -/
def Dense.At (m : Dense) (i j : Nat) : Scalar :=
  m.data.getD (i * m.cols + j) 0

/-- Modelled from the spec: the zero value `var c mat.Dense` of the tutorial,
a never-initialised receiver with zero dimensions and no storage. -/
def emptyDense : Dense := ⟨0, 0, []⟩

/-- Modelled from the spec: a receiver is empty (reusable with any shape)
exactly when it is the zero value with no dimensions. -/
def Dense.isEmpty (m : Dense) : Bool :=
  m.rows == 0 && m.cols == 0

/-- Modelled from the spec: `construct(rows, cols, initial)` fails with a
DimensionError if `initial` is present and its length differs from
`rows*cols`; a nil/absent initializer fills with zero. -/
def NewDense (r c : Nat) (init : Option (List Scalar)) : Except MatError Dense :=
  match init with
  | none => .ok ⟨r, c, List.replicate (r * c) 0⟩
  | some l => if l.length = r * c then .ok ⟨r, c, l⟩ else .error .DimensionError

/-- Modelled from the spec: `transpose()` returns a matrix with dimensions
swapped whose element `(i, j)` is the source's element `(j, i)`; it does not
mutate the source. -/
def Dense.T (m : Dense) : Dense :=
  ⟨m.cols, m.rows, (List.range (m.cols * m.rows)).map
    (fun k => m.At (k % m.rows) (k / m.rows))⟩

/-- Row-major buffer of the elementwise sum of two equally-shaped
matrices. -/
def addData (a b : Dense) : List Scalar :=
  (List.range (a.rows * a.cols)).map (fun k => a.data.getD k 0 + b.data.getD k 0)

/-- Modelled from the spec: `add(a, b)` writes the elementwise sum into the
receiver; it fails with a DimensionError if `a` and `b` differ in shape or if
a non-empty receiver has a shape other than the result's. -/
def Dense.Add (recv a b : Dense) : Except MatError Dense :=
  if a.rows = b.rows ∧ a.cols = b.cols then
    if recv.isEmpty = true ∨ (recv.rows = a.rows ∧ recv.cols = a.cols) then
      .ok ⟨a.rows, a.cols, addData a b⟩
    else .error .DimensionError
  else .error .DimensionError

/-- Row-major buffer of the Hadamard product of two equally-shaped
matrices. -/
def hadamardData (a b : Dense) : List Scalar :=
  (List.range (a.rows * a.cols)).map (fun k => a.data.getD k 0 * b.data.getD k 0)

/-- Modelled from the spec: `multiplyElementwise(a, b)` (Hadamard product)
into the receiver; requires identical operand dimensions, with the same
receiver-shape discipline as `add`. -/
def Dense.MulElem (recv a b : Dense) : Except MatError Dense :=
  if a.rows = b.rows ∧ a.cols = b.cols then
    if recv.isEmpty = true ∨ (recv.rows = a.rows ∧ recv.cols = a.cols) then
      .ok ⟨a.rows, a.cols, hadamardData a b⟩
    else .error .DimensionError
  else .error .DimensionError

/-- Row-major buffer of the standard matrix product of an `r×k` and a `k×c`
matrix. -/
def mulData (a b : Dense) : List Scalar :=
  (List.range (a.rows * b.cols)).map
    (fun k => Finset.sum (Finset.range a.cols)
      (fun t => a.At (k / b.cols) t * b.At t (k % b.cols)))

/-- Modelled from the spec: `multiply(a, b)` writes the standard matrix
product into the receiver; fails with a DimensionError unless
`a.cols == b.rows`; the receiver takes shape `(a.rows, b.cols)`, an empty
receiver being reshaped and a non-empty one required to match. -/
def Dense.Mul (recv a b : Dense) : Except MatError Dense :=
  if a.cols = b.rows then
    if recv.isEmpty = true ∨ (recv.rows = a.rows ∧ recv.cols = b.cols) then
      .ok ⟨a.rows, b.cols, mulData a b⟩
    else .error .DimensionError
  else .error .DimensionError

/-! Helper lemmas about row-major indexing and the list primitives used by
the model. -/

theorem rowmajor_lt {i j r n : Nat} (hi : i < r) (hj : j < n) :
    i * n + j < r * n := by
  calc i * n + j < i * n + n := Nat.add_lt_add_left hj _
    _ = (i + 1) * n := by rw [Nat.succ_mul]
    _ ≤ r * n := Nat.mul_le_mul_right _ (Nat.succ_le_of_lt hi)

theorem rowmajor_mod {i j n : Nat} (hj : j < n) : (i * n + j) % n = j := by
  rw [Nat.add_comm, Nat.add_mul_mod_self_right, Nat.mod_eq_of_lt hj]

theorem rowmajor_div {i j n : Nat} (hj : j < n) : (i * n + j) / n = i := by
  have hn : 0 < n := Nat.lt_of_le_of_lt (Nat.zero_le j) hj
  rw [Nat.add_comm, Nat.add_mul_div_right _ _ hn, Nat.div_eq_of_lt hj, Nat.zero_add]

theorem getD_range_map (f : Nat → Scalar) {N k : Nat} (h : k < N) :
    ((List.range N).map f).getD k 0 = f k := by
  have hk : k < ((List.range N).map f).length := by
    simpa using h
  rw [List.getD_eq_getElem _ _ hk]
  simp [h]

theorem getD_set_self (l : List Scalar) (i : Nat) (x : Scalar)
    (h : i < l.length) : (l.set i x).getD i 0 = x := by
  have hk : i < (l.set i x).length := by simpa using h
  rw [List.getD_eq_getElem _ _ hk]
  simp

/-! The column-vector model.  A `VecDense` value is its list of elements;
the algebra operations follow the receiver convention of the matrix ones. -/

/-- Modelled from the spec: a vector is a dense column of elements; its value
is the list of its entries. -/
abbrev Vec := List Scalar

/-- Modelled from the spec: `atVec(index)` reads the entry at `index`
(totalised with default 0; claims constrain indices to be in range). -/
def Vec.AtVec (v : Vec) (i : Nat) : Scalar :=
  v.getD i 0

/-- Modelled from the spec: `len()` is the number of entries. -/
def Vec.Len (v : Vec) : Nat :=
  v.length

/-- Modelled from the spec: `construct(length, initial)` with a nil
initializer fills with zero and otherwise requires exactly `length` values. -/
def NewVecDense (n : Nat) (init : Option (List Scalar)) : Except MatError Vec :=
  match init with
  | none => .ok (List.replicate n 0)
  | some l => if l.length = n then .ok l else .error .DimensionError

/-- Modelled from the spec: `addVec(a, b)` writes the elementwise sum into
the receiver; operand lengths must agree, and a non-empty receiver must have
the result's length. -/
def Vec.AddVec (recv a b : Vec) : Except MatError Vec :=
  if a.length = b.length then
    if recv.length = 0 ∨ recv.length = a.length then
      .ok (List.zipWith (fun x y => x + y) a b)
    else .error .DimensionError
  else .error .DimensionError

/-- Modelled from the spec: `subVec(a, b)` writes the elementwise difference
into the receiver, with the same shape discipline as `addVec`. -/
def Vec.SubVec (recv a b : Vec) : Except MatError Vec :=
  if a.length = b.length then
    if recv.length = 0 ∨ recv.length = a.length then
      .ok (List.zipWith (fun x y => x - y) a b)
    else .error .DimensionError
  else .error .DimensionError

/-- Modelled from the spec: `scaleVec(scalar, v)` writes `scalar * v` into
the receiver. -/
def Vec.ScaleVec (recv : Vec) (c : Scalar) (v : Vec) : Except MatError Vec :=
  if recv.length = 0 ∨ recv.length = v.length then
    .ok (v.map (fun x => c * x))
  else .error .DimensionError

/-- Modelled from the spec: `mulElemVec(a, b)` writes the elementwise product
into the receiver, with the same shape discipline as `addVec`. -/
def Vec.MulElemVec (recv a b : Vec) : Except MatError Vec :=
  if a.length = b.length then
    if recv.length = 0 ∨ recv.length = a.length then
      .ok (List.zipWith (fun x y => x * y) a b)
    else .error .DimensionError
  else .error .DimensionError

/-- The matrix-vector product of an `r×c` matrix and a length-`c` vector,
entry by entry; every entry reads only the operand values as given. -/
def mulVecData (m : Dense) (v : Vec) : Vec :=
  (List.range m.rows).map
    (fun i => Finset.sum (Finset.range m.cols) (fun k => m.At i k * v.AtVec k))

/-- Modelled from the spec: `mulVec(matrix, vector)` writes the
matrix-vector product into the receiver; fails with a DimensionError unless
`matrix.cols == vector.length`.  Every result entry is computed from the
operand values as given, so the contract is aliasing-safe by construction. -/
def Vec.MulVec (recv : Vec) (m : Dense) (v : Vec) : Except MatError Vec :=
  if m.cols = v.length then
    if recv.length = 0 ∨ recv.length = m.rows then
      .ok (mulVecData m v)
    else .error .DimensionError
  else .error .DimensionError

/-- Modelled from the spec: `dot(a, b)` returns the scalar product; fails
with a DimensionError if the lengths differ. -/
def Dot (a b : Vec) : Except MatError Scalar :=
  if a.length = b.length then
    .ok (Finset.sum (Finset.range a.length) (fun k => a.AtVec k * b.AtVec k))
  else .error .DimensionError

/-! A small store semantics for the receiver convention: matrices and vectors
live at numeric references, and each tutorial statement `dst.Op(a, b)`
replaces the contents of the reference `dst` with the operation's result
(computed from the current contents of the operand references), leaving the
store untouched when the operation fails. -/

/-- Store update at one reference. -/
def updStore {α : Type} (σ : Nat → α) (p : Nat) (x : α) : Nat → α :=
  fun q => if q = p then x else σ q

/-- Commit an operation's outcome to the receiver reference: on success the
result replaces the receiver's contents, on failure the store is untouched. -/
def writeResult {α : Type} (σ : Nat → α) (dst : Nat) (x : Except MatError α) :
    Nat → α :=
  match x with
  | .ok r => updStore σ dst r
  | .error _ => σ

/-- Modelled from the spec: the store effect of `dst.Add(a, b)`. -/
def stepAdd (σ : Nat → Dense) (dst pa pb : Nat) : Nat → Dense :=
  writeResult σ dst (Dense.Add (σ dst) (σ pa) (σ pb))

/-- Modelled from the spec: the store effect of `dst.Mul(a, b)`. -/
def stepMul (σ : Nat → Dense) (dst pa pb : Nat) : Nat → Dense :=
  writeResult σ dst (Dense.Mul (σ dst) (σ pa) (σ pb))

/-- Modelled from the spec: the store effect of `dst.MulElem(a, b)`. -/
def stepMulElem (σ : Nat → Dense) (dst pa pb : Nat) : Nat → Dense :=
  writeResult σ dst (Dense.MulElem (σ dst) (σ pa) (σ pb))

/-- Modelled from the spec: the store effect of binding `a.T()` to a fresh
name `dst` (transpose allocates a result and mutates nothing else). -/
def stepT (σ : Nat → Dense) (dst p : Nat) : Nat → Dense :=
  updStore σ dst (Dense.T (σ p))

/-- Modelled from the spec: the store effect of `dst.AddVec(a, b)`. -/
def stepAddVec (τ : Nat → Vec) (dst pa pb : Nat) : Nat → Vec :=
  writeResult τ dst (Vec.AddVec (τ dst) (τ pa) (τ pb))

/-- Modelled from the spec: the store effect of `dst.SubVec(a, b)`. -/
def stepSubVec (τ : Nat → Vec) (dst pa pb : Nat) : Nat → Vec :=
  writeResult τ dst (Vec.SubVec (τ dst) (τ pa) (τ pb))

/-- Modelled from the spec: the store effect of `dst.ScaleVec(c, v)`. -/
def stepScaleVec (τ : Nat → Vec) (dst : Nat) (c : Scalar) (pv : Nat) : Nat → Vec :=
  writeResult τ dst (Vec.ScaleVec (τ dst) c (τ pv))

/-- Modelled from the spec: the store effect of `dst.MulElemVec(a, b)`. -/
def stepMulElemVec (τ : Nat → Vec) (dst pa pb : Nat) : Nat → Vec :=
  writeResult τ dst (Vec.MulElemVec (τ dst) (τ pa) (τ pb))

/-- Modelled from the spec: the store effect of `dst.MulVec(m, v)` where the
matrix operand lives in a matrix store and the vector operand in the vector
store. -/
def stepMulVec (τ : Nat → Vec) (σm : Nat → Dense) (dst pm pv : Nat) : Nat → Vec :=
  writeResult τ dst (Vec.MulVec (τ dst) (σm pm) (τ pv))

/-- Modelled from the spec: `Dot(a, b)` is a package function with no
receiver; it returns a scalar and leaves the store exactly as it was. -/
def stepDot (τ : Nat → Vec) (pa pb : Nat) : (Nat → Vec) × Except MatError Scalar :=
  (τ, Dot (τ pa) (τ pb))

/-! The view model of slicing.  A slice is a window (offset and length) into
the origin vector's backing buffer, never a copy: reads and writes of the
origin and of any view go through the one shared buffer. -/

/-- Modelled from the spec: a vector view is an offset and a logical length
into a shared backing buffer; the origin vector itself is the view with
offset 0 whose length is the whole buffer. -/
structure VecView where
  off : Nat
  len : Nat
deriving DecidableEq, Repr

/-- Modelled from the spec: reading entry `i` of a view reads the shared
buffer at `off + i` (totalised with default 0; the claims constrain indices
to be in range). -/
def viewAt (buf : List Scalar) (w : VecView) (i : Nat) : Scalar :=
  buf.getD (w.off + i) 0

/-- Modelled from the spec: `setVec(index, value)` writes through the view
into the shared buffer; out-of-range indices fail with an IndexError. -/
def SetVec (buf : List Scalar) (w : VecView) (i : Nat) (x : Scalar) :
    Except MatError (List Scalar) :=
  if i < w.len then .ok (buf.set (w.off + i) x) else .error .IndexError

/-- Modelled from the spec: `sliceVec(start, end)` returns the half-open
window `[start, end)` of the receiver as a view over the same buffer; it
fails with an IndexError when `start` or `end` is negative, `start > end`,
or `end` exceeds the receiver's length — negative (end-relative) indexing is
never supported, and no clamping occurs. -/
def SliceVec (w : VecView) (start stop : Int) : Except MatError VecView :=
  if start < 0 ∨ stop < 0 ∨ start > stop ∨ stop > (w.len : Int) then
    .error .IndexError
  else
    .ok ⟨w.off + start.toNat, (stop - start).toNat⟩

/-- Modelled from the spec: `sliceVec` as a state transformer; it reads no
element and writes none, so it returns the buffer unchanged beside the view
(or the error). -/
def SliceVecS (buf : List Scalar) (w : VecView) (start stop : Int) :
    List Scalar × Except MatError VecView :=
  (buf, SliceVec w start stop)

/-! The symmetric-matrix model: only the upper triangle (diagonal included)
is authoritative; the lower triangle is derived by mirroring. -/

/-- Modelled from the spec: a symmetric matrix is constructed from `n*n`
row-major values of which only the upper triangle is semantically retained. -/
structure SymDense where
  n : Nat
  data : List Scalar
deriving DecidableEq, Repr

/-- Modelled from the spec: the symmetric constructor requires exactly
`size*size` initializer values. -/
def NewSymDense (n : Nat) (init : List Scalar) : Except MatError SymDense :=
  if init.length = n * n then .ok ⟨n, init⟩ else .error .DimensionError

/-- Modelled from the spec: reading `(i, j)` of a symmetric matrix reads the
stored upper-triangle entry, mirroring the indices when `i > j`. -/
def SymDense.At (s : SymDense) (i j : Nat) : Scalar :=
  if i ≤ j then s.data.getD (i * s.n + j) 0 else s.data.getD (j * s.n + i) 0

/-- Modelled from the spec: `setSym(row, col, value)` writes the value at
`(row, col)` and mirrors it to `(col, row)`; in the upper-triangle storage
this is one write to the upper-triangle position of the pair. -/
def SymDense.SetSym (s : SymDense) (i j : Nat) (x : Scalar) : SymDense :=
  if i ≤ j then ⟨s.n, s.data.set (i * s.n + j) x⟩
  else ⟨s.n, s.data.set (j * s.n + i) x⟩

/-- Modelled from the spec: a symmetric matrix is invariant under transpose;
`T()` returns an equal-valued view of the receiver. -/
def SymDense.T (s : SymDense) : SymDense := s

/-! The triangular-matrix model: one triangle (diagonal included) is stored,
the complementary triangle is structurally zero and immutable. -/

/-- Modelled from the spec: a triangular matrix is tagged Upper or Lower at
construction. -/
inductive TriKind where
  | Upper
  | Lower
deriving DecidableEq, Repr

/-- Transposition turns an Upper tag into a Lower one and vice versa. -/
def TriKind.flip : TriKind → TriKind
  | .Upper => .Lower
  | .Lower => .Upper

/-- The stored triangle: on/above the diagonal for Upper, on/below for
Lower. -/
def inTriangle (k : TriKind) (i j : Nat) : Bool :=
  match k with
  | .Upper => decide (i ≤ j)
  | .Lower => decide (j ≤ i)

/-- Modelled from the spec: a triangular matrix keeps its size, its
Upper/Lower tag and the `n*n` row-major initializer, of which only the
entries of the tagged triangle are semantically retained. -/
structure TriDense where
  n : Nat
  kind : TriKind
  data : List Scalar
deriving DecidableEq, Repr

/-- Modelled from the spec: the triangular constructor requires exactly
`size*size` initializer values. -/
def NewTriDense (n : Nat) (k : TriKind) (init : List Scalar) :
    Except MatError TriDense :=
  if init.length = n * n then .ok ⟨n, k, init⟩ else .error .DimensionError

/-- Modelled from the spec: reading a position outside the stored triangle
returns the structural zero; inside the triangle the stored value is read. -/
def TriDense.At (t : TriDense) (i j : Nat) : Scalar :=
  if inTriangle t.kind i j then t.data.getD (i * t.n + j) 0 else 0

/-- Modelled from the spec: `setTri(row, col, value)` fails with an
IndexError outside the matrix, fails with a StructuralWriteError on the
structurally-zero triangle (leaving the matrix unchanged), and otherwise
writes the stored triangle in place. -/
def TriDense.SetTri (t : TriDense) (i j : Nat) (x : Scalar) :
    Except MatError TriDense :=
  if t.n ≤ i ∨ t.n ≤ j then .error .IndexError
  else if inTriangle t.kind i j then
    .ok ⟨t.n, t.kind, t.data.set (i * t.n + j) x⟩
  else .error .StructuralWriteError

/-- Modelled from the spec: transposing a triangular matrix flips Upper and
Lower and mirrors the values across the diagonal. -/
def TriDense.T (t : TriDense) : TriDense :=
  ⟨t.n, t.kind.flip, (List.range (t.n * t.n)).map
    (fun k => t.At (k % t.n) (k / t.n))⟩

/-! Concrete values from the tutorial, used as witnesses. -/

/-- The tutorial's 3×4 matrix `m2` with entries 1..12. -/
def mat2ex : Dense := ⟨3, 4, [1, 2, 3, 4, 5, 6, 7, 8, 9, 10, 11, 12]⟩

/-- The product of `m2` with its transpose, as printed by the tutorial. -/
def prodEx : Dense := ⟨3, 3, [30, 70, 110, 70, 174, 278, 110, 278, 446]⟩

/-- The tutorial's ten-element vector 1..10. -/
def exList10 : List Scalar := [1, 2, 3, 4, 5, 6, 7, 8, 9, 10]

/-- The tutorial's vector `v5 = [2, 3, 4]`. -/
def exV5 : Vec := [2, 3, 4]

/-- The tutorial's rotation matrix about the z axis. -/
def rotEx : Dense := ⟨3, 3, [0, -1, 0, 1, 0, 0, 0, 0, 1]⟩

/-- The tutorial's symmetric matrix built from 1..9. -/
def exSym : SymDense := ⟨3, [1, 2, 3, 4, 5, 6, 7, 8, 9]⟩

/-- The tutorial's upper triangular matrix `t3` built from 1..9. -/
def exTri : TriDense := ⟨3, .Upper, [1, 2, 3, 4, 5, 6, 7, 8, 9]⟩

/-- A concrete matrix store. -/
def exDStore : Nat → Dense := fun _ => mat2ex

/-- A concrete vector store. -/
def exVStore : Nat → Vec := fun _ => exV5

/-! General lemmas about the model, shared by the claim theorems. -/

/-- Any zero-filled buffer reads as zero everywhere. -/
theorem getD_replicate_zero (n k : Nat) :
    (List.replicate n (0 : Scalar)).getD k 0 = 0 := by
  induction n generalizing k with
  | zero => simp [List.getD]
  | succ m ih =>
    cases k with
    | zero => simp [List.replicate]
    | succ k0 => simp [List.replicate, List.getD_cons_succ, ih k0]

/-- A frame fact for the receiver convention: writing an operation's result
(or dropping it on error) into the receiver reference touches no other
reference. -/
theorem step_frame {α : Type} (σ : Nat → α) (dst : Nat)
    (x : Except MatError α) (q : Nat) (hq : q ≠ dst) :
    writeResult σ dst x q = σ q := by
  cases x <;> simp [writeResult, updStore, hq]

/-- Transposing a dense matrix mirrors every in-range element. -/
theorem denseAt_T (m : Dense) {i j : Nat} (hi : i < m.cols) (hj : j < m.rows) :
    (m.T).At i j = m.At j i := by
  show ((List.range (m.cols * m.rows)).map _).getD (i * m.rows + j) 0 = m.At j i
  rw [getD_range_map _ (rowmajor_lt hi hj)]
  rw [rowmajor_mod hj, rowmajor_div hj]

/-- A symmetric matrix reads equal values at mirrored positions, always. -/
theorem symAt_comm (s : SymDense) (i j : Nat) : s.At i j = s.At j i := by
  by_cases h1 : i ≤ j
  · by_cases h2 : j ≤ i
    · have hij : i = j := Nat.le_antisymm h1 h2
      subst hij
      rfl
    · simp [SymDense.At, h1, h2]
  · have h2 : j ≤ i := Nat.le_of_lt (Nat.lt_of_not_le h1)
    simp [SymDense.At, h1, h2]

/-- The two stored-triangle predicates mirror each other under the tag
flip. -/
theorem inTriangle_flip (k : TriKind) (i j : Nat) :
    inTriangle k.flip i j = inTriangle k j i := by
  cases k <;> rfl

/-- Transposing a triangular matrix mirrors every in-range element,
structural zeroes included. -/
theorem triAt_T (t : TriDense) {i j : Nat} (hi : i < t.n) (hj : j < t.n) :
    (t.T).At i j = t.At j i := by
  show (if inTriangle t.kind.flip i j then
          ((List.range (t.n * t.n)).map _).getD (i * t.n + j) 0
        else 0) = t.At j i
  rw [getD_range_map _ (rowmajor_lt hi hj), rowmajor_mod hj, rowmajor_div hj,
    inTriangle_flip]
  by_cases h : inTriangle t.kind j i
  · simp [h]
  · simp [h, TriDense.At]

/-! The claim theorems. -/

/-- C1: every algebra operation of the library (transpose, add, multiply,
element-wise multiply, vector add/sub/scale, matrix-vector multiply, dot) is
pure on its operands: in the store semantics of the receiver convention, a
call writes at most the receiver's reference, so the contents of every other
reference — in particular both operands, when they are objects distinct from
the receiver — equal their pre-call value, and `Dot`, which has no receiver,
changes nothing at all. -/
theorem C1_operand_purity :
    (∀ (σ : Nat → Dense) (dst pa pb q : Nat), q ≠ dst →
      stepAdd σ dst pa pb q = σ q)
  ∧ (∀ (σ : Nat → Dense) (dst pa pb q : Nat), q ≠ dst →
      stepMul σ dst pa pb q = σ q)
  ∧ (∀ (σ : Nat → Dense) (dst pa pb q : Nat), q ≠ dst →
      stepMulElem σ dst pa pb q = σ q)
  ∧ (∀ (σ : Nat → Dense) (dst p q : Nat), q ≠ dst →
      stepT σ dst p q = σ q)
  ∧ (∀ (τ : Nat → Vec) (dst pa pb q : Nat), q ≠ dst →
      stepAddVec τ dst pa pb q = τ q)
  ∧ (∀ (τ : Nat → Vec) (dst pa pb q : Nat), q ≠ dst →
      stepSubVec τ dst pa pb q = τ q)
  ∧ (∀ (τ : Nat → Vec) (dst : Nat) (c : Scalar) (pv q : Nat), q ≠ dst →
      stepScaleVec τ dst c pv q = τ q)
  ∧ (∀ (τ : Nat → Vec) (dst pa pb q : Nat), q ≠ dst →
      stepMulElemVec τ dst pa pb q = τ q)
  ∧ (∀ (τ : Nat → Vec) (σm : Nat → Dense) (dst pm pv q : Nat), q ≠ dst →
      stepMulVec τ σm dst pm pv q = τ q)
  ∧ (∀ (τ : Nat → Vec) (pa pb q : Nat), (stepDot τ pa pb).1 q = τ q) := by
  refine ⟨?_, ?_, ?_, ?_, ?_, ?_, ?_, ?_, ?_, ?_⟩
  · intro σ dst pa pb q hq
    exact step_frame σ dst (Dense.Add (σ dst) (σ pa) (σ pb)) q hq
  · intro σ dst pa pb q hq
    exact step_frame σ dst (Dense.Mul (σ dst) (σ pa) (σ pb)) q hq
  · intro σ dst pa pb q hq
    exact step_frame σ dst (Dense.MulElem (σ dst) (σ pa) (σ pb)) q hq
  · intro σ dst p q hq
    simp [stepT, updStore, hq]
  · intro τ dst pa pb q hq
    exact step_frame τ dst (Vec.AddVec (τ dst) (τ pa) (τ pb)) q hq
  · intro τ dst pa pb q hq
    exact step_frame τ dst (Vec.SubVec (τ dst) (τ pa) (τ pb)) q hq
  · intro τ dst c pv q hq
    exact step_frame τ dst (Vec.ScaleVec (τ dst) c (τ pv)) q hq
  · intro τ dst pa pb q hq
    exact step_frame τ dst (Vec.MulElemVec (τ dst) (τ pa) (τ pb)) q hq
  · intro τ σm dst pm pv q hq
    exact step_frame τ dst (Vec.MulVec (τ dst) (σm pm) (τ pv)) q hq
  · intro τ pa pb q
    rfl

/-- C1, witness: with all references holding the tutorial's concrete values,
each operation issued with receiver reference 0 leaves reference 3 — and so
the operands held there — untouched. -/
theorem C1_operand_purity_witness :
    stepAdd exDStore 0 1 2 3 = exDStore 3
  ∧ stepMul exDStore 0 1 2 3 = exDStore 3
  ∧ stepMulElem exDStore 0 1 2 3 = exDStore 3
  ∧ stepT exDStore 0 1 3 = exDStore 3
  ∧ stepAddVec exVStore 0 1 2 3 = exVStore 3
  ∧ stepSubVec exVStore 0 1 2 3 = exVStore 3
  ∧ stepScaleVec exVStore 0 10 1 3 = exVStore 3
  ∧ stepMulElemVec exVStore 0 1 2 3 = exVStore 3
  ∧ stepMulVec exVStore exDStore 0 1 2 3 = exVStore 3
  ∧ (stepDot exVStore 1 2).1 3 = exVStore 3 :=
  ⟨C1_operand_purity.1 exDStore 0 1 2 3 (by decide),
   C1_operand_purity.2.1 exDStore 0 1 2 3 (by decide),
   C1_operand_purity.2.2.1 exDStore 0 1 2 3 (by decide),
   C1_operand_purity.2.2.2.1 exDStore 0 1 3 (by decide),
   C1_operand_purity.2.2.2.2.1 exVStore 0 1 2 3 (by decide),
   C1_operand_purity.2.2.2.2.2.1 exVStore 0 1 2 3 (by decide),
   C1_operand_purity.2.2.2.2.2.2.1 exVStore 0 10 1 3 (by decide),
   C1_operand_purity.2.2.2.2.2.2.2.1 exVStore 0 1 2 3 (by decide),
   C1_operand_purity.2.2.2.2.2.2.2.2.1 exVStore exDStore 0 1 2 3 (by decide),
   C1_operand_purity.2.2.2.2.2.2.2.2.2 exVStore 1 2 3⟩

/-- C2: a slice view is a window into the origin vector's storage, never a
copy: for any origin vector (the full view over its buffer), any slice
`w = sliceVec(start, stop)` of it that succeeds, and any index `i` with
`start ≤ i < stop`, writing `x` at `i` through the origin is read back as `x`
at `i - start` through the view. -/
theorem C2_slice_view_aliasing (buf buf2 : List Scalar) (w : VecView)
    (start stop : Int) (i : Nat) (x : Scalar)
    (hw : SliceVec ⟨0, buf.length⟩ start stop = .ok w)
    (hlo : start.toNat ≤ i) (hhi : (i : Int) < stop)
    (hset : SetVec buf ⟨0, buf.length⟩ i x = .ok buf2) :
    viewAt buf2 w (i - start.toNat) = x := by
  unfold SliceVec at hw
  split at hw
  · exact absurd hw (by simp)
  · have hw2 : w = ⟨0 + start.toNat, (stop - start).toNat⟩ :=
      (Except.ok.inj hw).symm
    subst hw2
    unfold SetVec at hset
    split at hset
    · have hb : buf2 = buf.set (0 + i) x := (Except.ok.inj hset).symm
      subst hb
      have hibuf : i < buf.length := by
        rename_i hcond hilen
        exact hilen
      show (buf.set (0 + i) x).getD (0 + start.toNat + (i - start.toNat)) 0 = x
      rw [Nat.zero_add, Nat.zero_add, Nat.add_sub_cancel' hlo]
      exact getD_set_self buf i x hibuf
    · exact absurd hset (by simp)

/-- C2, witness: the tutorial's instance — with origin `v = [1..10]` and
view `w = v.sliceVec(0, 9)`, after `v.setVec(5, 100)` the view reads 100 at
index 5. -/
theorem C2_slice_view_aliasing_witness :
    SliceVec ⟨0, exList10.length⟩ 0 9 = .ok ⟨0, 9⟩
  ∧ SetVec exList10 ⟨0, exList10.length⟩ 5 100 = .ok (exList10.set 5 100)
  ∧ viewAt (exList10.set 5 100) ⟨0, 9⟩ (5 - (0 : Int).toNat) = 100 :=
  ⟨rfl, rfl,
   C2_slice_view_aliasing exList10 (exList10.set 5 100) ⟨0, 9⟩ 0 9 5 100
     rfl (by decide) (by decide) rfl⟩

/-- C3: a symmetric matrix reads equal values at `(i, j)` and `(j, i)` at all
times, and `setSym` preserves this: after `setSym(i, j, v)` on any
well-formed symmetric matrix, both `at(i, j)` and `at(j, i)` read `v` — the
mirror position is updated whenever `i ≠ j`, and for `i = j` the single
diagonal entry carries the value. -/
theorem C3_symmetric_invariant :
    (∀ (s : SymDense) (i j : Nat), s.At i j = s.At j i)
  ∧ (∀ (s : SymDense) (i j : Nat) (x : Scalar),
      s.data.length = s.n * s.n → i < s.n → j < s.n →
      (s.SetSym i j x).At i j = x ∧ (s.SetSym i j x).At j i = x) := by
  refine ⟨symAt_comm, ?_⟩
  intro s i j x hlen hi hj
  by_cases h1 : i ≤ j
  · have hbound : i * s.n + j < s.data.length := by
      rw [hlen]
      exact rowmajor_lt hi hj
    have hread : (s.SetSym i j x).At i j = x := by
      simp only [SymDense.SetSym, SymDense.At, if_pos h1]
      exact getD_set_self _ _ _ hbound
    refine ⟨hread, ?_⟩
    rw [symAt_comm]
    exact hread
  · have h2 : j ≤ i := Nat.le_of_lt (Nat.lt_of_not_le h1)
    have hbound : j * s.n + i < s.data.length := by
      rw [hlen]
      exact rowmajor_lt hj hi
    have hread : (s.SetSym i j x).At j i = x := by
      simp only [SymDense.SetSym, SymDense.At, if_neg h1, if_pos h2]
      exact getD_set_self _ _ _ hbound
    refine ⟨?_, hread⟩
    rw [symAt_comm]
    exact hread

/-- C3, witness: the tutorial's instance — on the 3×3 symmetric matrix built
from 1..9, `setSym(1, 0, -100)` makes both `at(1, 0)` and `at(0, 1)` read
-100, and mirrored reads agree on the untouched matrix as well. -/
theorem C3_symmetric_invariant_witness :
    exSym.At 0 1 = exSym.At 1 0
  ∧ (exSym.SetSym 1 0 (-100)).At 1 0 = -100
  ∧ (exSym.SetSym 1 0 (-100)).At 0 1 = -100 :=
  ⟨C3_symmetric_invariant.1 exSym 0 1,
   (C3_symmetric_invariant.2 exSym 1 0 (-100) (by decide) (by decide)
     (by decide)).1,
   (C3_symmetric_invariant.2 exSym 1 0 (-100) (by decide) (by decide)
     (by decide)).2⟩

/-- C4: on a triangular matrix, an in-range `setTri(row, col, value)` fails
with a StructuralWriteError exactly when `(row, col)` lies in the
structurally-zero triangle (`row > col` for Upper, `row < col` for Lower),
the matrix being returned unchanged on failure; a write inside the stored
triangle succeeds and is read back by `at(row, col)`. -/
theorem C4_triangular_write (t : TriDense) (i j : Nat) (x : Scalar)
    (hi : i < t.n) (hj : j < t.n) :
    (t.SetTri i j x = .error .StructuralWriteError ↔
      inTriangle t.kind i j = false)
  ∧ (inTriangle t.kind i j = true →
      t.SetTri i j x = .ok ⟨t.n, t.kind, t.data.set (i * t.n + j) x⟩)
  ∧ (t.data.length = t.n * t.n → inTriangle t.kind i j = true →
      (TriDense.mk t.n t.kind (t.data.set (i * t.n + j) x)).At i j = x) := by
  have hrange : ¬(t.n ≤ i ∨ t.n ≤ j) := by
    push_neg
    exact ⟨hi, hj⟩
  refine ⟨?_, ?_, ?_⟩
  · unfold TriDense.SetTri
    rw [if_neg hrange]
    by_cases h : inTriangle t.kind i j
    · simp [h]
    · simp [h]
  · intro h
    unfold TriDense.SetTri
    rw [if_neg hrange, if_pos h]
  · intro hlen h
    have hbound : i * t.n + j < t.data.length := by
      rw [hlen]
      exact rowmajor_lt hi hj
    show (if inTriangle t.kind i j then
            (t.data.set (i * t.n + j) x).getD (i * t.n + j) 0
          else 0) = x
    rw [if_pos h]
    exact getD_set_self _ _ _ hbound

/-- C4, witness: the tutorial's instance — on the size-3 Upper matrix `t3`,
`setTri(2, 0, 100)` fails with a StructuralWriteError while `setTri(0, 2,
100)` succeeds and `at(0, 2)` then reads 100. -/
theorem C4_triangular_write_witness :
    exTri.SetTri 2 0 100 = .error .StructuralWriteError
  ∧ exTri.SetTri 0 2 100 =
      .ok ⟨exTri.n, exTri.kind, exTri.data.set (0 * exTri.n + 2) 100⟩
  ∧ (TriDense.mk exTri.n exTri.kind
      (exTri.data.set (0 * exTri.n + 2) 100)).At 0 2 = 100 :=
  ⟨(C4_triangular_write exTri 2 0 100 (by decide) (by decide)).1.mpr
     (by decide),
   (C4_triangular_write exTri 0 2 100 (by decide) (by decide)).2.1 (by decide),
   (C4_triangular_write exTri 0 2 100 (by decide) (by decide)).2.2 (by decide)
     (by decide)⟩

/-- C5: dense construction is row-major: for positive dimensions and an
initializer of matching length, construction succeeds and `at(i, j)` reads
`initial[i*cols + j]` for all in-range `(i, j)`; with an absent initializer
every element reads as zero. -/
theorem C5_rowmajor_construction (r c : Nat) (l : List Scalar)
    (hr : 0 < r) (hc : 0 < c) (hl : l.length = r * c) :
    NewDense r c (some l) = .ok ⟨r, c, l⟩
  ∧ (∀ i j, (hi : i < r) → (hj : j < c) →
      (Dense.mk r c l).At i j =
        l.get ⟨i * c + j, by rw [hl]; exact rowmajor_lt hi hj⟩)
  ∧ NewDense r c none = .ok ⟨r, c, List.replicate (r * c) 0⟩
  ∧ (∀ i j, (Dense.mk r c (List.replicate (r * c) 0)).At i j = 0) := by
  refine ⟨?_, ?_, rfl, ?_⟩
  · simp [NewDense, hl]
  · intro i j hi hj
    have hbound : i * c + j < l.length := by
      rw [hl]
      exact rowmajor_lt hi hj
    show l.getD (i * c + j) 0 = _
    rw [List.getD_eq_getElem _ _ hbound, List.get_eq_getElem]
  · intro i j
    exact getD_replicate_zero _ _

/-- C5, witness: the tutorial's 3×4 construction from 1..12 — `at(1, 2)`
reads element `1*4 + 2 = 7` of the initializer, and the nil-initialized 5×6
matrix reads zero at `(4, 5)`. -/
theorem C5_rowmajor_construction_witness :
    NewDense 3 4 (some mat2ex.data) = .ok ⟨3, 4, mat2ex.data⟩
  ∧ (Dense.mk 3 4 mat2ex.data).At 1 2 = mat2ex.data.get ⟨1 * 4 + 2, by decide⟩
  ∧ NewDense 5 6 none = .ok ⟨5, 6, List.replicate (5 * 6) 0⟩
  ∧ (Dense.mk 5 6 (List.replicate (5 * 6) 0)).At 4 5 = 0 :=
  ⟨(C5_rowmajor_construction 3 4 mat2ex.data (by decide) (by decide)
      (by decide)).1,
   (C5_rowmajor_construction 3 4 mat2ex.data (by decide) (by decide)
      (by decide)).2.1 1 2 (by decide) (by decide),
   (C5_rowmajor_construction 5 6 (List.replicate (5 * 6) 0) (by decide)
      (by decide) (by simp)).2.2.1,
   (C5_rowmajor_construction 5 6 (List.replicate (5 * 6) 0) (by decide)
      (by decide) (by simp)).2.2.2 4 5⟩

/-- C6: `multiply(a, b)` fails with a DimensionError whenever
`a.cols ≠ b.rows`; whenever it succeeds the receiver takes shape
`(a.rows, b.cols)` and holds the standard matrix product; and on the
tutorial's instance, the 3×4 matrix 1..12 times its transpose is
`[[30, 70, 110], [70, 174, 278], [110, 278, 446]]`. -/
theorem C6_matrix_product (recv a b : Dense) :
    (a.cols ≠ b.rows → Dense.Mul recv a b = .error .DimensionError)
  ∧ (∀ r, Dense.Mul recv a b = .ok r →
      r.rows = a.rows ∧ r.cols = b.cols ∧
      ∀ i j, i < a.rows → j < b.cols →
        r.At i j =
          Finset.sum (Finset.range a.cols) (fun k => a.At i k * b.At k j))
  ∧ Dense.Mul emptyDense mat2ex (Dense.T mat2ex) = .ok prodEx := by
  refine ⟨?_, ?_, ?_⟩
  · intro h
    unfold Dense.Mul
    rw [if_neg h]
  · intro r hr
    unfold Dense.Mul at hr
    split at hr
    · split at hr
      · have hr2 : r = ⟨a.rows, b.cols, mulData a b⟩ := (Except.ok.inj hr).symm
        subst hr2
        refine ⟨rfl, rfl, ?_⟩
        intro i j hi hj
        show (mulData a b).getD (i * b.cols + j) 0 = _
        unfold mulData
        rw [getD_range_map _ (rowmajor_lt hi hj), rowmajor_mod hj,
          rowmajor_div hj]
      · exact absurd hr (by simp)
    · exact absurd hr (by simp)
  · norm_num [Dense.Mul, mulData, Dense.T, Dense.At, mat2ex, prodEx,
      emptyDense, Dense.isEmpty, List.range_succ, Finset.sum_range_succ]

/-- C6, witness: a shape mismatch (a 2×3 by 2×2 product) fails with a
DimensionError, and on the tutorial's product the elementwise formula holds
at position `(0, 1)` where the stored value is 70. -/
theorem C6_matrix_product_witness :
    Dense.Mul emptyDense (Dense.mk 2 3 [1, 2, 3, 4, 5, 6])
      (Dense.mk 2 2 [1, 0, 0, 1]) = .error .DimensionError
  ∧ prodEx.At 0 1 =
      Finset.sum (Finset.range mat2ex.cols)
        (fun k => mat2ex.At 0 k * (Dense.T mat2ex).At k 1) :=
  ⟨(C6_matrix_product emptyDense (Dense.mk 2 3 [1, 2, 3, 4, 5, 6])
      (Dense.mk 2 2 [1, 0, 0, 1])).1 (by decide),
   ((C6_matrix_product emptyDense mat2ex (Dense.T mat2ex)).2.1 prodEx
      (C6_matrix_product emptyDense mat2ex (Dense.T mat2ex)).2.2).2.2 0 1
      (by decide) (by decide)⟩

/-- C7: transpose is an involution elementwise on Dense, Symmetric and
Triangular matrices; a single transpose of a Triangular matrix flips Upper
and Lower and mirrors the values across the diagonal, and a single transpose
of a Symmetric matrix already yields an equal-valued matrix. -/
theorem C7_transpose_involution :
    (∀ (m : Dense) (i j : Nat), i < m.cols → j < m.rows →
      (m.T).At i j = m.At j i)
  ∧ (∀ (m : Dense) (i j : Nat), i < m.rows → j < m.cols →
      ((m.T).T).At i j = m.At i j)
  ∧ (∀ (s : SymDense) (i j : Nat), (s.T).At i j = s.At i j)
  ∧ (∀ (s : SymDense), (s.T).T = s)
  ∧ (∀ (t : TriDense), (t.T).kind = t.kind.flip)
  ∧ (∀ (t : TriDense) (i j : Nat), i < t.n → j < t.n →
      (t.T).At i j = t.At j i)
  ∧ (∀ (t : TriDense), ((t.T).T).kind = t.kind)
  ∧ (∀ (t : TriDense) (i j : Nat), i < t.n → j < t.n →
      ((t.T).T).At i j = t.At i j) := by
  refine ⟨?_, ?_, ?_, ?_, ?_, ?_, ?_, ?_⟩
  · intro m i j hi hj
    exact denseAt_T m hi hj
  · intro m i j hi hj
    rw [denseAt_T (m.T) hi hj, denseAt_T m hj hi]
  · intro s i j
    rfl
  · intro s
    rfl
  · intro t
    rfl
  · intro t i j hi hj
    exact triAt_T t hi hj
  · intro t
    cases h : t.kind <;> simp [TriDense.T, TriKind.flip, h]
  · intro t i j hi hj
    rw [triAt_T (t.T) hi hj, triAt_T t hj hi]

/-- C7, witness: the tutorial's matrices — the double transpose of the 3×4
matrix 1..12 restores `at(1, 2)`, a single transpose of the upper triangular
`t1` is Lower-tagged with `at(2, 0)` reading the original `at(0, 2)`, the
double transpose restores tag and elements, and the symmetric matrix is
unchanged by transpose. -/
theorem C7_transpose_involution_witness :
    ((mat2ex.T).T).At 1 2 = mat2ex.At 1 2
  ∧ (exTri.T).kind = TriKind.Lower
  ∧ (exTri.T).At 2 0 = exTri.At 0 2
  ∧ ((exTri.T).T).kind = TriKind.Upper
  ∧ ((exTri.T).T).At 0 2 = exTri.At 0 2
  ∧ (exSym.T).At 1 0 = exSym.At 1 0 :=
  ⟨C7_transpose_involution.2.1 mat2ex 1 2 (by decide) (by decide),
   C7_transpose_involution.2.2.2.2.1 exTri,
   C7_transpose_involution.2.2.2.2.2.1 exTri 2 0 (by decide) (by decide),
   C7_transpose_involution.2.2.2.2.2.2.1 exTri,
   C7_transpose_involution.2.2.2.2.2.2.2 exTri 0 2 (by decide) (by decide),
   C7_transpose_involution.2.2.1 exSym 1 0⟩

/-- C8: `sliceVec(start, end)` fails with an IndexError exactly when `start`
or `end` is negative, `start > end`, or `end` exceeds the vector's length —
negative end-relative indexing is never supported and nothing is clamped —
and as a pure state transformer it leaves the vector's buffer unchanged; in
particular `sliceVec(0, -1)` fails with an IndexError. -/
theorem C8_slice_bounds (w : VecView) (start stop : Int) :
    (SliceVec w start stop = .error .IndexError ↔
      start < 0 ∨ stop < 0 ∨ start > stop ∨ stop > (w.len : Int))
  ∧ (∀ buf : List Scalar, (SliceVecS buf w start stop).1 = buf)
  ∧ SliceVec ⟨0, 10⟩ 0 (-1) = .error .IndexError := by
  refine ⟨?_, fun _ => rfl, rfl⟩
  unfold SliceVec
  split
  · rename_i h
    simpa using h
  · rename_i h
    simpa using h

/-- C8, witness: the failure condition applied at the tutorial's call
`v.sliceVec(0, -1)` on the length-10 vector, and the buffer left intact. -/
theorem C8_slice_bounds_witness :
    SliceVec ⟨0, exList10.length⟩ 0 (-1) = .error .IndexError
  ∧ (SliceVecS exList10 ⟨0, exList10.length⟩ 0 (-1)).1 = exList10 :=
  ⟨(C8_slice_bounds ⟨0, exList10.length⟩ 0 (-1)).1.mpr (by decide),
   (C8_slice_bounds ⟨0, exList10.length⟩ 0 (-1)).2.1 exList10⟩

/-- C9: a freshly declared, never-initialised dense receiver (zero
dimensions, no storage) is accepted by `add` and `multiply`: on
equally-shaped operands `add` succeeds, the receiver taking shape
`(a.rows, a.cols)` and holding the elementwise sum, and on inner-dimension
compatible operands `multiply` succeeds, the receiver taking shape
`(a.rows, b.cols)` and holding the product — no DimensionError is raised
for the empty receiver's own shape. -/
theorem C9_empty_receiver (a b : Dense) :
    (a.rows = b.rows → a.cols = b.cols →
      Dense.Add emptyDense a b = .ok ⟨a.rows, a.cols, addData a b⟩ ∧
      ∀ i j, i < a.rows → j < a.cols →
        (Dense.mk a.rows a.cols (addData a b)).At i j = a.At i j + b.At i j)
  ∧ (a.cols = b.rows →
      Dense.Mul emptyDense a b = .ok ⟨a.rows, b.cols, mulData a b⟩ ∧
      ∀ i j, i < a.rows → j < b.cols →
        (Dense.mk a.rows b.cols (mulData a b)).At i j =
          Finset.sum (Finset.range a.cols)
            (fun k => a.At i k * b.At k j)) := by
  constructor
  · intro hrows hcols
    constructor
    · simp [Dense.Add, hrows, hcols, emptyDense, Dense.isEmpty]
    · intro i j hi hj
      show (addData a b).getD (i * a.cols + j) 0 = _
      unfold addData
      rw [getD_range_map _ (rowmajor_lt hi hj)]
      show a.data.getD (i * a.cols + j) 0 + b.data.getD (i * a.cols + j) 0 = _
      rw [Dense.At, Dense.At, hcols]
  · intro hinner
    constructor
    · simp [Dense.Mul, hinner, emptyDense, Dense.isEmpty]
    · intro i j hi hj
      show (mulData a b).getD (i * b.cols + j) 0 = _
      unfold mulData
      rw [getD_range_map _ (rowmajor_lt hi hj), rowmajor_mod hj,
        rowmajor_div hj]

/-- C9, witness: the tutorial's calls — `c.Add(m3, m3)` and `d.Mul(m2, m3)`
on zero-value receivers succeed, the receivers taking shapes 4×3 and 3×3,
with the summed element at `(0, 1)` equal to `5 + 5`. -/
theorem C9_empty_receiver_witness :
    Dense.Add emptyDense (Dense.T mat2ex) (Dense.T mat2ex) =
      .ok ⟨(Dense.T mat2ex).rows, (Dense.T mat2ex).cols,
        addData (Dense.T mat2ex) (Dense.T mat2ex)⟩
  ∧ (Dense.mk (Dense.T mat2ex).rows (Dense.T mat2ex).cols
      (addData (Dense.T mat2ex) (Dense.T mat2ex))).At 0 1 =
        (Dense.T mat2ex).At 0 1 + (Dense.T mat2ex).At 0 1
  ∧ Dense.Mul emptyDense mat2ex (Dense.T mat2ex) =
      .ok ⟨mat2ex.rows, (Dense.T mat2ex).cols, mulData mat2ex (Dense.T mat2ex)⟩ :=
  ⟨((C9_empty_receiver (Dense.T mat2ex) (Dense.T mat2ex)).1 rfl rfl).1,
   ((C9_empty_receiver (Dense.T mat2ex) (Dense.T mat2ex)).1 rfl rfl).2 0 1
     (by decide) (by decide),
   ((C9_empty_receiver mat2ex (Dense.T mat2ex)).2 rfl).1⟩

/-- C10: matrix-vector multiplication is aliasing-safe: for a square matrix
`m` and a vector `v` of matching length, calling `mulVec(m, v)` with the
vector itself as the receiver returns exactly what a distinct fresh receiver
would receive — every result entry is computed from `v`'s pre-call values;
on the tutorial's instance, rotating `v5 = [2, 3, 4]` in place by the matrix
`[[0, -1, 0], [1, 0, 0], [0, 0, 1]]` yields `[-3, 2, 4]`. -/
theorem C10_mulvec_aliasing (m : Dense) (v : Vec)
    (hsq : m.rows = m.cols) (hd : m.cols = v.length) :
    Vec.MulVec v m v = Vec.MulVec ([] : Vec) m v
  ∧ Vec.MulVec v m v = .ok (mulVecData m v)
  ∧ Vec.MulVec exV5 rotEx exV5 = .ok [-3, 2, 4] := by
  have hlen : v.length = m.rows := by
    rw [hsq, hd]
  have hok : Vec.MulVec v m v = .ok (mulVecData m v) := by
    unfold Vec.MulVec
    rw [if_pos hd, if_pos (Or.inr hlen)]
  refine ⟨?_, hok, ?_⟩
  · rw [hok]
    simp [Vec.MulVec, hd]
  · norm_num [Vec.MulVec, mulVecData, Dense.At, Vec.AtVec, rotEx, exV5,
      List.range_succ, Finset.sum_range_succ]

/-- C10, witness: the tutorial's in-place rotation — `v5.MulVec(m5, v5)`
equals the fresh-receiver result and is `[-3, 2, 4]`. -/
theorem C10_mulvec_aliasing_witness :
    Vec.MulVec exV5 rotEx exV5 = Vec.MulVec ([] : Vec) rotEx exV5
  ∧ Vec.MulVec exV5 rotEx exV5 = .ok [-3, 2, 4] :=
  ⟨(C10_mulvec_aliasing rotEx exV5 rfl rfl).1,
   (C10_mulvec_aliasing rotEx exV5 rfl rfl).2.2⟩

end GonumModel
